import Mathlib

/-!
Shallow embedding of the message controller of the `whatsapp-bulk` backend
(`src/controllers/message.controller.ts`) together with the Prisma data model
(`prisma/schema.prisma`).  HTTP handlers are modelled as pure functions from an
environment (database rows plus collaborator behaviour) and a parsed request to
an HTTP response paired with the observable side effects (uploads, fetches,
created rows, log lines, whether the batch processor was started).
-/

/-- `ClientStatus` enum of the Prisma schema. -/
inductive ClientStatus
  | INITIALIZING
  | CONNECTED
  | DISCONNECTED
  | LOGOUT
deriving DecidableEq, Repr

/-- `MessageStatus` enum of the Prisma schema. -/
inductive MessageStatus
  | PENDING
  | SENT
  | FAILED
deriving DecidableEq, Repr

/-- A row of the `Client` model (fields relevant to the controller). -/
structure Client where
  id : String
  userId : String
  status : ClientStatus
deriving DecidableEq, Repr

/-- A row of the `Message` model. -/
structure Message where
  id : String
  clientId : String
  number : String
  content : String
  status : MessageStatus
  mediaUrl : Option String
  errorDetail : Option String
  createdAt : Nat
deriving DecidableEq, Repr

/-- An uploaded multipart file as multer presents it (`req.file`). -/
structure UploadedFile where
  mimetype : String
  size : Nat
  buffer : List Nat
deriving DecidableEq, Repr

/-- The parsed pieces of a `POST` batch request that the controller reads:
`req.user?.id`, `req.body.numbers`, `req.body.content`, `req.body.mediaUrl`
and `req.file`.  `none` models an absent (undefined) field. -/
structure Req where
  userId : Option String
  numbersField : Option String
  contentField : Option String
  mediaUrlField : Option String
  file : Option UploadedFile
deriving DecidableEq, Repr

/-- Result of `fetch(url)`: the `ok` flag and the response body bytes. -/
structure FetchResponse where
  ok : Bool
  body : List Nat
deriving DecidableEq, Repr

/-- The environment of a batch request: the `Client` table and the
collaborators the controller calls.  `getInstance` models
`clientService.getWhatsAppInstance` (`true` = a runtime handle exists),
`uploadResult` models `uploadToCloudinary` returning a `public_id`,
`optimizedUrl` models `getOptimizedUrl`, `fetch` models the global `fetch`.
`idSeed`/`now` feed the generated ids and `createdAt` timestamps of new rows. -/
structure Env where
  clients : List Client
  getInstance : String → Bool
  uploadResult : List Nat → String
  optimizedUrl : String → String
  fetch : String → FetchResponse
  idSeed : Nat
  now : Nat

/-- The observable effects of handling one batch request. -/
structure Effects where
  uploads : Nat
  fetches : Nat
  created : List Message
  logs : List String
  batchStarted : Bool
deriving DecidableEq, Repr

/-- The JSON envelope the controller sends, plus the HTTP status code. -/
structure HttpResponse where
  status : Nat
  success : Bool
  message : String
  errorField : Option String
  messageIds : Option (List String)
deriving DecidableEq, Repr

/-- No side effects. -/
def noEffects : Effects :=
  { uploads := 0, fetches := 0, created := [], logs := [], batchStarted := false }

/-- MIME types accepted by the multer `fileFilter`. -/
def allowedMimes : List String :=
  ["image/jpeg", "image/png", "image/gif", "application/pdf"]

/-- The multer middleware `upload`: accepts no file, or a file whose size is
within the 16 MiB limit and whose mimetype is allowed; otherwise it errors
(a `MulterError` for the size limit, the `fileFilter` error otherwise). -/
def multerUpload : Option UploadedFile → Except String Unit
  | none => Except.ok ()
  | some f =>
    if f.size > 16 * 1024 * 1024 then
      Except.error "Upload error: File too large"
    else if allowedMimes.contains f.mimetype then
      Except.ok ()
    else
      Except.error "Invalid file type. Only images and PDF are allowed."

/-- JavaScript `s.split(",")` on the list of characters of `s`:
splits at every comma, keeping empty pieces. -/
def splitCommaAux : List Char → List Char → List String
  | [], acc => [String.mk acc.reverse]
  | c :: cs, acc =>
    if c = ',' then String.mk acc.reverse :: splitCommaAux cs []
    else splitCommaAux cs (c :: acc)

/-- JavaScript `s.split(",")`. -/
def splitComma (s : String) : List String :=
  splitCommaAux s.data []

/-- `(req.body.numbers as string)?.split(",").filter(Boolean) || []`:
absent field gives `[]`; otherwise split at commas and drop empty pieces. -/
def parseNumbers : Option String → List String
  | none => []
  | some s => (splitComma s).filter (fun x => !(x == ""))

/-- JavaScript `String.prototype.trim`, over the character list. -/
def jsTrim (s : String) : String :=
  String.mk (((s.data.dropWhile Char.isWhitespace).reverse.dropWhile
    Char.isWhitespace).reverse)

/-- `String(req.body.content || "").trim()`. -/
def parseContent : Option String → String
  | none => ""
  | some s => jsTrim s

/-- `req.user?.id` followed by the `if (!userId)` truthiness check:
an absent or empty-string id is unauthenticated. -/
def authUser : Option String → Option String
  | none => none
  | some u => if u = "" then none else some u

/-- The local `media` variable: the uploaded file's buffer if a file is
present, else the `mediaUrl` string if it is truthy, else nothing. -/
inductive MediaSrc
  | fromFile (buffer : List Nat)
  | fromUrl (url : String)
deriving DecidableEq, Repr

/-- `let media; if (req.file) media = req.file.buffer; else if (mediaUrl) media = mediaUrl;` -/
def mediaSource (req : Req) : Option MediaSrc :=
  match req.file with
  | some f => some (MediaSrc.fromFile f.buffer)
  | none =>
    match req.mediaUrlField with
    | some u => if u = "" then none else some (MediaSrc.fromUrl u)
    | none => none

/-- Outcome of the media-processing block: a resolved optional Cloudinary URL
together with the number of upload and fetch calls made, or the failure of a
URL fetch whose response was not `ok`. -/
inductive MediaResult
  | ok (url : Option String) (uploads fetches : Nat)
  | fetchFailed
deriving DecidableEq, Repr

/-- The media-processing block of `sendBatchMessages`: buffers are uploaded to
Cloudinary and the optimized URL derived; URL sources are fetched first, a
non-`ok` response raising `Failed to fetch media from URL`. -/
def resolveMedia (env : Env) : Option MediaSrc → MediaResult
  | none => MediaResult.ok none 0 0
  | some (MediaSrc.fromFile b) =>
      MediaResult.ok (some (env.optimizedUrl (env.uploadResult b))) 1 0
  | some (MediaSrc.fromUrl u) =>
      if (env.fetch u).ok then
        MediaResult.ok (some (env.optimizedUrl (env.uploadResult (env.fetch u).body))) 1 1
      else MediaResult.fetchFailed

/-- Modelled from the spec: `messageRepository.createMessages(sessionId,
{numbers, content, media})` (the repository module is not part of the excerpt).
Per the spec it persists exactly one `Message` row per recipient, in input
order, each with a distinct generated id, all `PENDING`, sharing the given
content and media URL, and returns the created records in input order. -/
def createMessages (clientId : String) (content : String) (media : Option String)
    (seed now : Nat) : List String → List Message
  | [] => []
  | n :: ns =>
    { id := "msg-" ++ toString seed, clientId := clientId, number := n,
      content := content, status := MessageStatus.PENDING, mediaUrl := media,
      errorDetail := none, createdAt := now }
      :: createMessages clientId content media (seed + 1) now ns

/-- `prisma.client.findFirst({ where: { userId } })`. -/
def findFirstClient (clients : List Client) (userId : String) : Option Client :=
  clients.find? (fun c => c.userId == userId)

/-- The `sendBatchMessages` handler up to (and including) sending the HTTP
response; the detached `processBatch` promise's outcome is accounted for
separately by `addBatchLog`.  A multer rejection propagates to the outer
`catch`, which answers 500. -/
def sendBatchCore (env : Env) (req : Req) : HttpResponse × Effects :=
  match multerUpload req.file with
  | Except.error e =>
    ({ status := 500, success := false, message := "Failed to send messages",
       errorField := some e, messageIds := none },
     { noEffects with logs := ["Send batch messages error: " ++ e] })
  | Except.ok _ =>
    match authUser req.userId with
    | none =>
      ({ status := 401, success := false, message := "Unauthorized",
         errorField := none, messageIds := none }, noEffects)
    | some userId =>
      if parseNumbers req.numbersField = [] ∨ parseContent req.contentField = "" then
        ({ status := 400, success := false,
           message := "Invalid format: numbers array is required and content cannot be empty",
           errorField := none, messageIds := none },
         { noEffects with
             logs := ["Invalid format: numbers array is required and content cannot be empty"] })
      else
        match findFirstClient env.clients userId with
        | none =>
          ({ status := 400, success := false, message := "WhatsApp client not connected",
             errorField := none, messageIds := none }, noEffects)
        | some c =>
          if c.status = ClientStatus.CONNECTED then
            if env.getInstance c.id then
              match resolveMedia env (mediaSource req) with
              | MediaResult.fetchFailed =>
                ({ status := 400, success := false, message := "Failed to process media",
                   errorField := some "Failed to fetch media from URL", messageIds := none },
                 { noEffects with
                     fetches := 1,
                     logs := ["Failed to process media: Failed to fetch media from URL"] })
              | MediaResult.ok url up fe =>
                ({ status := 200, success := true,
                   message := "Processing messages for " ++
                     toString (parseNumbers req.numbersField).length ++ " recipients",
                   errorField := none,
                   messageIds := some ((createMessages c.id (parseContent req.contentField)
                     url env.idSeed env.now (parseNumbers req.numbersField)).map Message.id) },
                 { uploads := up, fetches := fe,
                   created := createMessages c.id (parseContent req.contentField)
                     url env.idSeed env.now (parseNumbers req.numbersField),
                   logs := [], batchStarted := true })
            else
              ({ status := 400, success := false, message := "WhatsApp client not initialized",
                 errorField := none, messageIds := none },
               { noEffects with logs := ["WhatsApp client not initialized"] })
          else
            ({ status := 400, success := false, message := "WhatsApp client not connected",
               errorField := none, messageIds := none }, noEffects)

/-- `whatsappInstance.processBatch(messageRecords).catch(err => logger.error(...))`:
the detached promise's failure is only logged, and only if a batch was started. -/
def addBatchLog : Except String Unit → Effects → Effects
  | Except.ok _, eff => eff
  | Except.error e, eff =>
    if eff.batchStarted then
      { eff with logs := eff.logs ++ ["Message processing error: " ++ e] }
    else eff

/-- The whole `sendBatchMessages` handler: the HTTP response is computed by
`sendBatchCore`, and the detached batch promise's `outcome` only contributes a
log line. -/
def sendBatchMessages (env : Env) (outcome : Except String Unit) (req : Req) :
    HttpResponse × Effects :=
  ((sendBatchCore env req).1, addBatchLog outcome (sendBatchCore env req).2)

/-- The database seen by the read-side handlers: the `Client` and `Message`
tables. -/
structure DB where
  clients : List Client
  messages : List Message

/-- The `where` clause of the paired `findMany`/`count` queries of
`getMessages`: rows of the user's client, optionally filtered by status. -/
def matchesFilter (clientId : String) (statusFilter : Option MessageStatus)
    (m : Message) : Bool :=
  m.clientId == clientId &&
    (match statusFilter with
     | none => true
     | some s => m.status == s)

/-- The ordering `orderBy: { createdAt: "desc" }`: `a` comes no later than `b`
when `a`'s timestamp is at least `b`'s. -/
def createdDesc (a b : Message) : Prop :=
  b.createdAt ≤ a.createdAt

instance : DecidableRel createdDesc := fun a b =>
  inferInstanceAs (Decidable (b.createdAt ≤ a.createdAt))

instance : IsTotal Message createdDesc :=
  ⟨fun a b => (Nat.le_total b.createdAt a.createdAt).elim Or.inl Or.inr⟩

instance : IsTrans Message createdDesc :=
  ⟨fun _ _ _ h1 h2 => Nat.le_trans h2 h1⟩

/-- The rows of a `findMany` ordered by `createdAt` descending. -/
def sortDesc (l : List Message) : List Message :=
  l.insertionSort createdDesc

/-- JavaScript `Math.ceil(total / limit)` on integer inputs with
`limit ≥ 1`. -/
def jsCeilDiv (total limit : Nat) : Nat :=
  (total + limit - 1) / limit

/-- The `pagination` object of the list response. -/
structure Pagination where
  page : Nat
  limit : Nat
  total : Nat
  totalPages : Nat
deriving DecidableEq, Repr

/-- Response of `getMessages`: HTTP status, `success`, the page of messages
and the pagination object (absent on error paths). -/
structure ListResponse where
  status : Nat
  success : Bool
  messages : List Message
  pagination : Option Pagination
deriving DecidableEq, Repr

/-- The `getMessages` handler: authenticate, find the user's first client
(404 when absent), then inside one transaction page the client's messages by
`createdAt` descending with the optional status filter, and count them. -/
def getMessages (db : DB) (userIdOpt : Option String) (page limit : Nat)
    (statusFilter : Option MessageStatus) : ListResponse :=
  match authUser userIdOpt with
  | none => { status := 401, success := false, messages := [], pagination := none }
  | some userId =>
    match findFirstClient db.clients userId with
    | none => { status := 404, success := false, messages := [], pagination := none }
    | some client =>
      { status := 200, success := true,
        messages := ((sortDesc (db.messages.filter
          (matchesFilter client.id statusFilter))).drop ((page - 1) * limit)).take limit,
        pagination := some
          { page := page, limit := limit,
            total := (db.messages.filter (matchesFilter client.id statusFilter)).length,
            totalPages := jsCeilDiv
              (db.messages.filter (matchesFilter client.id statusFilter)).length limit } }

/-- Response of `getMessageStatus`. -/
structure SingleResponse where
  status : Nat
  success : Bool
  data : Option Message
deriving DecidableEq, Repr

/-- The `getMessageStatus` handler:
`prisma.message.findFirst({ where: { id: messageId, client: { userId } } })`,
404 when no row matches. -/
def getMessageStatus (db : DB) (userIdOpt : Option String) (messageId : String) :
    SingleResponse :=
  match authUser userIdOpt with
  | none => { status := 401, success := false, data := none }
  | some userId =>
    match db.messages.find? (fun m => m.id == messageId &&
        db.clients.any (fun c => c.id == m.clientId && c.userId == userId)) with
    | none => { status := 404, success := false, data := none }
    | some m => { status := 200, success := true, data := some m }

theorem createMessages_length (cid ct : String) (md : Option String) (s now : Nat)
    (ns : List String) : (createMessages cid ct md s now ns).length = ns.length := by
  induction ns generalizing s with
  | nil => rfl
  | cons n ns ih => simp [createMessages, ih]

theorem createMessages_map_number (cid ct : String) (md : Option String) (s now : Nat)
    (ns : List String) : (createMessages cid ct md s now ns).map Message.number = ns := by
  induction ns generalizing s with
  | nil => rfl
  | cons n ns ih => simp [createMessages, ih]

theorem createMessages_mem (cid ct : String) (md : Option String) (s now : Nat)
    (ns : List String) (m : Message) :
    m ∈ createMessages cid ct md s now ns →
      m.status = MessageStatus.PENDING ∧ m.content = ct ∧ m.mediaUrl = md ∧
        m.clientId = cid := by
  induction ns generalizing s with
  | nil => intro hm; cases hm
  | cons n ns ih =>
    intro hm
    rcases List.mem_cons.mp hm with hm | hm
    · subst hm; exact ⟨rfl, rfl, rfl, rfl⟩
    · exact ih (s + 1) hm

theorem addBatchLog_created (o : Except String Unit) (eff : Effects) :
    (addBatchLog o eff).created = eff.created := by
  cases o with
  | ok _ => rfl
  | error e => by_cases h : eff.batchStarted = true <;> simp [addBatchLog, h]

theorem addBatchLog_uploads (o : Except String Unit) (eff : Effects) :
    (addBatchLog o eff).uploads = eff.uploads := by
  cases o with
  | ok _ => rfl
  | error e => by_cases h : eff.batchStarted = true <;> simp [addBatchLog, h]

theorem addBatchLog_fetches (o : Except String Unit) (eff : Effects) :
    (addBatchLog o eff).fetches = eff.fetches := by
  cases o with
  | ok _ => rfl
  | error e => by_cases h : eff.batchStarted = true <;> simp [addBatchLog, h]

theorem addBatchLog_batchStarted (o : Except String Unit) (eff : Effects) :
    (addBatchLog o eff).batchStarted = eff.batchStarted := by
  cases o with
  | ok _ => rfl
  | error e => by_cases h : eff.batchStarted = true <;> simp [addBatchLog, h]

/-- Happy-path environment fixture: one connected client `c1` of user `u1`,
a live runtime handle, and total collaborators. -/
def envHappy : Env :=
  { clients := [{ id := "c1", userId := "u1", status := ClientStatus.CONNECTED }],
    getInstance := fun _ => true,
    uploadResult := fun _ => "pid",
    optimizedUrl := fun s => "https://cdn/" ++ s,
    fetch := fun _ => { ok := true, body := [7] },
    idSeed := 0, now := 100 }

/-- Happy-path request fixture: two recipients, text content, no media. -/
def reqHappy : Req :=
  { userId := some "u1", numbersField := some "111,222",
    contentField := some "Hello", mediaUrlField := none, file := none }

/-- C1: a batch request with non-empty recipients and content that passes the
session and media checks creates exactly one PENDING record per recipient, in
input order, all sharing the content and resolved media URL, and the 200
response's `messageIds` lists the created records' ids in input order. -/
theorem sendBatch_creates_pending_record_per_recipient
    (env : Env) (o : Except String Unit) (req : Req) (u : String) (c : Client)
    (url : Option String) (up fe : Nat)
    (hm : multerUpload req.file = Except.ok ())
    (ha : authUser req.userId = some u)
    (hn : parseNumbers req.numbersField ≠ [])
    (hc : parseContent req.contentField ≠ "")
    (hcl : findFirstClient env.clients u = some c)
    (hst : c.status = ClientStatus.CONNECTED)
    (hi : env.getInstance c.id = true)
    (hmedia : resolveMedia env (mediaSource req) = MediaResult.ok url up fe) :
    (sendBatchMessages env o req).1.status = 200 ∧
    (sendBatchMessages env o req).2.created.length =
      (parseNumbers req.numbersField).length ∧
    (sendBatchMessages env o req).2.created.map Message.number =
      parseNumbers req.numbersField ∧
    (∀ m ∈ (sendBatchMessages env o req).2.created,
      m.status = MessageStatus.PENDING ∧
      m.content = parseContent req.contentField ∧ m.mediaUrl = url) ∧
    (sendBatchMessages env o req).1.messageIds =
      some ((sendBatchMessages env o req).2.created.map Message.id) := by
  have hv : ¬(parseNumbers req.numbersField = [] ∨ parseContent req.contentField = "") :=
    fun h => h.elim hn hc
  simp only [sendBatchMessages, sendBatchCore, hm, ha, hcl, hst, hi, hmedia, hv,
    if_false, ite_false, ite_true, if_true, addBatchLog_created]
  refine ⟨trivial, createMessages_length _ _ _ _ _ _,
    createMessages_map_number _ _ _ _ _ _, ?_, trivial⟩
  intro m hmem
  exact ((createMessages_mem _ _ _ _ _ _ m) hmem).imp id (And.imp id And.left)

/-- Witness for C1 at a concrete request: two recipients, content `Hello`,
no media, connected session. -/
theorem sendBatch_creates_pending_record_per_recipient_witness :
    (sendBatchMessages envHappy (Except.ok ()) reqHappy).1.status = 200 ∧
    (sendBatchMessages envHappy (Except.ok ()) reqHappy).2.created.length =
      (parseNumbers reqHappy.numbersField).length ∧
    (sendBatchMessages envHappy (Except.ok ()) reqHappy).2.created.map Message.number =
      parseNumbers reqHappy.numbersField ∧
    (∀ m ∈ (sendBatchMessages envHappy (Except.ok ()) reqHappy).2.created,
      m.status = MessageStatus.PENDING ∧
      m.content = parseContent reqHappy.contentField ∧ m.mediaUrl = none) ∧
    (sendBatchMessages envHappy (Except.ok ()) reqHappy).1.messageIds =
      some ((sendBatchMessages envHappy (Except.ok ()) reqHappy).2.created.map
        Message.id) :=
  sendBatch_creates_pending_record_per_recipient envHappy (Except.ok ()) reqHappy
    "u1" { id := "c1", userId := "u1", status := ClientStatus.CONNECTED } none 0 0
    (by rfl) (by rfl) (by decide) (by decide) (by rfl) (by rfl) (by rfl) (by rfl)

/-- Request fixture with an absent `numbers` field. -/
def reqEmptyNumbers : Req :=
  { userId := some "u1", numbersField := none, contentField := some "Hello",
    mediaUrlField := none, file := none }

/-- C2: a batch request whose parsed recipient list is empty or whose content
is empty (or whitespace-only, hence empty after trimming) is answered with the
invalid-format 400 response and no message record is created, no upload and no
fetch occurs, and no batch is started. -/
theorem sendBatch_invalid_request_creates_nothing
    (env : Env) (o : Except String Unit) (req : Req) (u : String)
    (hm : multerUpload req.file = Except.ok ())
    (ha : authUser req.userId = some u)
    (hinv : parseNumbers req.numbersField = [] ∨ parseContent req.contentField = "") :
    (sendBatchMessages env o req).1.status = 400 ∧
    (sendBatchMessages env o req).1.success = false ∧
    (sendBatchMessages env o req).1.message =
      "Invalid format: numbers array is required and content cannot be empty" ∧
    (sendBatchMessages env o req).2.created = [] ∧
    (sendBatchMessages env o req).2.uploads = 0 ∧
    (sendBatchMessages env o req).2.fetches = 0 ∧
    (sendBatchMessages env o req).2.batchStarted = false := by
  simp [sendBatchMessages, sendBatchCore, hm, ha, if_pos hinv, addBatchLog_created,
    addBatchLog_uploads, addBatchLog_fetches, addBatchLog_batchStarted, noEffects]

/-- Witness for C2: a request with no `numbers` field at all. -/
theorem sendBatch_invalid_request_creates_nothing_witness :
    (sendBatchMessages envHappy (Except.ok ()) reqEmptyNumbers).1.status = 400 ∧
    (sendBatchMessages envHappy (Except.ok ()) reqEmptyNumbers).1.success = false ∧
    (sendBatchMessages envHappy (Except.ok ()) reqEmptyNumbers).1.message =
      "Invalid format: numbers array is required and content cannot be empty" ∧
    (sendBatchMessages envHappy (Except.ok ()) reqEmptyNumbers).2.created = [] ∧
    (sendBatchMessages envHappy (Except.ok ()) reqEmptyNumbers).2.uploads = 0 ∧
    (sendBatchMessages envHappy (Except.ok ()) reqEmptyNumbers).2.fetches = 0 ∧
    (sendBatchMessages envHappy (Except.ok ()) reqEmptyNumbers).2.batchStarted = false :=
  sendBatch_invalid_request_creates_nothing envHappy (Except.ok ()) reqEmptyNumbers
    "u1" (by rfl) (by rfl) (Or.inl (by rfl))

/-- The session precondition of the dispatch pipeline fails: the user has no
client row, or the client is not CONNECTED, or no runtime instance exists. -/
def sessionNotReady (env : Env) (u : String) : Prop :=
  match findFirstClient env.clients u with
  | none => True
  | some c => ¬(c.status = ClientStatus.CONNECTED) ∨ env.getInstance c.id = false

/-- C3: when the authenticated user's session is missing, not CONNECTED, or
has no runtime instance, the batch request is answered with a 400 response and
no message record is created, nothing is uploaded or fetched, and no batch is
started. -/
theorem sendBatch_session_not_ready_creates_nothing
    (env : Env) (o : Except String Unit) (req : Req) (u : String)
    (hm : multerUpload req.file = Except.ok ())
    (ha : authUser req.userId = some u)
    (hs : sessionNotReady env u) :
    (sendBatchMessages env o req).1.status = 400 ∧
    (sendBatchMessages env o req).1.success = false ∧
    (sendBatchMessages env o req).2.created = [] ∧
    (sendBatchMessages env o req).2.uploads = 0 ∧
    (sendBatchMessages env o req).2.fetches = 0 ∧
    (sendBatchMessages env o req).2.batchStarted = false := by
  by_cases hv : parseNumbers req.numbersField = [] ∨ parseContent req.contentField = ""
  · simp [sendBatchMessages, sendBatchCore, hm, ha, if_pos hv, addBatchLog_created,
      addBatchLog_uploads, addBatchLog_fetches, addBatchLog_batchStarted, noEffects]
  · unfold sessionNotReady at hs
    cases hcl : findFirstClient env.clients u with
    | none =>
      simp [sendBatchMessages, sendBatchCore, hm, ha, if_neg hv, hcl,
        addBatchLog_created, addBatchLog_uploads, addBatchLog_fetches,
        addBatchLog_batchStarted, noEffects]
    | some c =>
      rw [hcl] at hs
      by_cases hstat : c.status = ClientStatus.CONNECTED
      · have hinst : env.getInstance c.id = false := by
          rcases hs with hs | hs
          · exact absurd hstat hs
          · exact hs
        simp [sendBatchMessages, sendBatchCore, hm, ha, if_neg hv, hcl, hstat, hinst,
          addBatchLog_created, addBatchLog_uploads, addBatchLog_fetches,
          addBatchLog_batchStarted, noEffects]
      · simp [sendBatchMessages, sendBatchCore, hm, ha, if_neg hv, hcl, hstat,
          addBatchLog_created, addBatchLog_uploads, addBatchLog_fetches,
          addBatchLog_batchStarted, noEffects]

/-- Environment fixture whose only client is DISCONNECTED. -/
def envDisconnected : Env :=
  { envHappy with
      clients := [{ id := "c1", userId := "u1", status := ClientStatus.DISCONNECTED }] }

/-- Witness for C3: a valid request against a DISCONNECTED session. -/
theorem sendBatch_session_not_ready_creates_nothing_witness :
    (sendBatchMessages envDisconnected (Except.ok ()) reqHappy).1.status = 400 ∧
    (sendBatchMessages envDisconnected (Except.ok ()) reqHappy).1.success = false ∧
    (sendBatchMessages envDisconnected (Except.ok ()) reqHappy).2.created = [] ∧
    (sendBatchMessages envDisconnected (Except.ok ()) reqHappy).2.uploads = 0 ∧
    (sendBatchMessages envDisconnected (Except.ok ()) reqHappy).2.fetches = 0 ∧
    (sendBatchMessages envDisconnected (Except.ok ()) reqHappy).2.batchStarted = false :=
  sendBatch_session_not_ready_creates_nothing envDisconnected (Except.ok ()) reqHappy
    "u1" (by rfl) (by rfl) (by simp [sessionNotReady, findFirstClient, envDisconnected])

/-- Environment fixture whose remote fetch always answers non-`ok`. -/
def envFetchFail : Env :=
  { envHappy with fetch := fun _ => { ok := false, body := [] } }

/-- Request fixture supplying a media URL and no file. -/
def reqWithUrl : Req :=
  { reqHappy with mediaUrlField := some "http://media.example/a.png" }

/-- C5: a batch request whose media URL fetch answers non-`ok` is answered
with the 400 `Failed to process media` response carrying the fetch error, and
no message record is created, nothing is uploaded, and no batch is started. -/
theorem sendBatch_media_fetch_failure_creates_nothing
    (env : Env) (o : Except String Unit) (req : Req) (u : String) (c : Client)
    (url : String)
    (hm : multerUpload req.file = Except.ok ())
    (ha : authUser req.userId = some u)
    (hn : parseNumbers req.numbersField ≠ [])
    (hc : parseContent req.contentField ≠ "")
    (hcl : findFirstClient env.clients u = some c)
    (hst : c.status = ClientStatus.CONNECTED)
    (hi : env.getInstance c.id = true)
    (hsrc : mediaSource req = some (MediaSrc.fromUrl url))
    (hfail : (env.fetch url).ok = false) :
    (sendBatchMessages env o req).1.status = 400 ∧
    (sendBatchMessages env o req).1.success = false ∧
    (sendBatchMessages env o req).1.message = "Failed to process media" ∧
    (sendBatchMessages env o req).1.errorField = some "Failed to fetch media from URL" ∧
    (sendBatchMessages env o req).2.created = [] ∧
    (sendBatchMessages env o req).2.uploads = 0 ∧
    (sendBatchMessages env o req).2.batchStarted = false := by
  have hv : ¬(parseNumbers req.numbersField = [] ∨ parseContent req.contentField = "") :=
    fun h => h.elim hn hc
  have hmedia : resolveMedia env (mediaSource req) = MediaResult.fetchFailed := by
    rw [hsrc]
    simp [resolveMedia, hfail]
  simp [sendBatchMessages, sendBatchCore, hm, ha, hcl, hst, hi, hmedia, hv,
    addBatchLog_created, addBatchLog_uploads, addBatchLog_fetches,
    addBatchLog_batchStarted, noEffects]

/-- Witness for C5: a valid request with a media URL against an environment
whose fetch fails. -/
theorem sendBatch_media_fetch_failure_creates_nothing_witness :
    (sendBatchMessages envFetchFail (Except.ok ()) reqWithUrl).1.status = 400 ∧
    (sendBatchMessages envFetchFail (Except.ok ()) reqWithUrl).1.success = false ∧
    (sendBatchMessages envFetchFail (Except.ok ()) reqWithUrl).1.message =
      "Failed to process media" ∧
    (sendBatchMessages envFetchFail (Except.ok ()) reqWithUrl).1.errorField =
      some "Failed to fetch media from URL" ∧
    (sendBatchMessages envFetchFail (Except.ok ()) reqWithUrl).2.created = [] ∧
    (sendBatchMessages envFetchFail (Except.ok ()) reqWithUrl).2.uploads = 0 ∧
    (sendBatchMessages envFetchFail (Except.ok ()) reqWithUrl).2.batchStarted = false :=
  sendBatch_media_fetch_failure_creates_nothing envFetchFail (Except.ok ()) reqWithUrl
    "u1" { id := "c1", userId := "u1", status := ClientStatus.CONNECTED }
    "http://media.example/a.png" (by rfl) (by rfl) (by decide) (by decide) (by rfl)
    (by rfl) (by rfl) (by rfl) (by rfl)

theorem resolveMedia_ok_uploads (env : Env) (src : Option MediaSrc)
    (url : Option String) (up fe : Nat)
    (h : resolveMedia env src = MediaResult.ok url up fe) : up ≤ 1 := by
  cases src with
  | none =>
    simp [resolveMedia] at h
    omega
  | some s =>
    cases s with
    | fromFile b =>
      simp [resolveMedia] at h
      omega
    | fromUrl u2 =>
      by_cases hok : (env.fetch u2).ok = true
      · simp [resolveMedia, hok] at h
        omega
      · simp [resolveMedia, hok] at h

theorem sendBatchCore_uploads_le_one (env : Env) (req : Req) :
    (sendBatchCore env req).2.uploads ≤ 1 := by
  unfold sendBatchCore
  repeat' split
  all_goals try simp [noEffects]
  all_goals
    (rename_i urlx upx fex heq
     exact resolveMedia_ok_uploads env (mediaSource req) urlx upx fex heq)

/-- C8: a batch request with neither an uploaded file nor a media URL proceeds
(200) with no media reference on the created records, makes no upload and no
fetch call; and every request — whatever its shape — makes at most one upload
call to the storage collaborator. -/
theorem sendBatch_no_media_and_at_most_one_upload
    (env : Env) (o : Except String Unit) (req : Req) (u : String) (c : Client)
    (hm : multerUpload req.file = Except.ok ())
    (ha : authUser req.userId = some u)
    (hn : parseNumbers req.numbersField ≠ [])
    (hc : parseContent req.contentField ≠ "")
    (hcl : findFirstClient env.clients u = some c)
    (hst : c.status = ClientStatus.CONNECTED)
    (hi : env.getInstance c.id = true)
    (hfile : req.file = none)
    (hurl : req.mediaUrlField = none) :
    (sendBatchMessages env o req).1.status = 200 ∧
    (sendBatchMessages env o req).2.uploads = 0 ∧
    (sendBatchMessages env o req).2.fetches = 0 ∧
    (∀ m ∈ (sendBatchMessages env o req).2.created, m.mediaUrl = none) ∧
    (∀ (env2 : Env) (o2 : Except String Unit) (req2 : Req),
      (sendBatchMessages env2 o2 req2).2.uploads ≤ 1) := by
  have hv : ¬(parseNumbers req.numbersField = [] ∨ parseContent req.contentField = "") :=
    fun h => h.elim hn hc
  have hmedia : resolveMedia env (mediaSource req) = MediaResult.ok none 0 0 := by
    simp [mediaSource, hfile, hurl, resolveMedia]
  refine ⟨?_, ?_, ?_, ?_, ?_⟩
  · simp [sendBatchMessages, sendBatchCore, hm, ha, hcl, hst, hi, hmedia, hv]
  · simp [sendBatchMessages, sendBatchCore, hm, ha, hcl, hst, hi, hmedia, hv,
      addBatchLog_uploads]
  · simp [sendBatchMessages, sendBatchCore, hm, ha, hcl, hst, hi, hmedia, hv,
      addBatchLog_fetches]
  · have hcreated : (sendBatchMessages env o req).2.created =
        createMessages c.id (parseContent req.contentField) none env.idSeed env.now
          (parseNumbers req.numbersField) := by
      simp [sendBatchMessages, sendBatchCore, hm, ha, hcl, hst, hi, hmedia, hv,
        addBatchLog_created]
    intro m hmem
    rw [hcreated] at hmem
    exact ((createMessages_mem _ _ _ _ _ _ m) hmem).2.2.1
  · intro env2 o2 req2
    unfold sendBatchMessages
    rw [addBatchLog_uploads]
    exact sendBatchCore_uploads_le_one env2 req2

/-- Witness for C8: the happy-path fixture request has no file and no URL. -/
theorem sendBatch_no_media_and_at_most_one_upload_witness :
    (sendBatchMessages envHappy (Except.ok ()) reqHappy).1.status = 200 ∧
    (sendBatchMessages envHappy (Except.ok ()) reqHappy).2.uploads = 0 ∧
    (sendBatchMessages envHappy (Except.ok ()) reqHappy).2.fetches = 0 ∧
    (∀ m ∈ (sendBatchMessages envHappy (Except.ok ()) reqHappy).2.created,
      m.mediaUrl = none) ∧
    (∀ (env2 : Env) (o2 : Except String Unit) (req2 : Req),
      (sendBatchMessages env2 o2 req2).2.uploads ≤ 1) :=
  sendBatch_no_media_and_at_most_one_upload envHappy (Except.ok ()) reqHappy
    "u1" { id := "c1", userId := "u1", status := ClientStatus.CONNECTED }
    (by rfl) (by rfl) (by decide) (by decide) (by rfl) (by rfl) (by rfl) (by rfl) (by rfl)

/-- A well-formed uploaded PNG file fixture. -/
def filePng : UploadedFile :=
  { mimetype := "image/png", size := 4, buffer := [1, 2, 3, 4] }

/-- Request fixture supplying both an uploaded file and a media URL. -/
def reqFileAndUrl : Req :=
  { reqHappy with
      file := some filePng,
      mediaUrlField := some "http://media.example/a.png" }

/-- C10: when a request supplies both an uploaded file and a `mediaUrl`, the
file's bytes win: the handler behaves exactly as if the `mediaUrl` field were
absent, no fetch is attempted, one upload of the file's bytes happens, and the
persisted media URL is derived from the uploaded bytes. -/
theorem sendBatch_file_beats_mediaUrl
    (env : Env) (o : Except String Unit) (req : Req) (u : String) (c : Client)
    (f : UploadedFile)
    (hfile : req.file = some f)
    (hurl : req.mediaUrlField ≠ none)
    (hm : multerUpload req.file = Except.ok ())
    (ha : authUser req.userId = some u)
    (hn : parseNumbers req.numbersField ≠ [])
    (hc : parseContent req.contentField ≠ "")
    (hcl : findFirstClient env.clients u = some c)
    (hst : c.status = ClientStatus.CONNECTED)
    (hi : env.getInstance c.id = true) :
    sendBatchMessages env o { req with mediaUrlField := none } =
      sendBatchMessages env o req ∧
    (sendBatchMessages env o req).2.fetches = 0 ∧
    (sendBatchMessages env o req).2.uploads = 1 ∧
    (sendBatchMessages env o req).1.status = 200 ∧
    (∀ m ∈ (sendBatchMessages env o req).2.created,
      m.mediaUrl = some (env.optimizedUrl (env.uploadResult f.buffer))) := by
  have hv : ¬(parseNumbers req.numbersField = [] ∨ parseContent req.contentField = "") :=
    fun h => h.elim hn hc
  have hsrc : mediaSource req = some (MediaSrc.fromFile f.buffer) := by
    simp [mediaSource, hfile]
  have hms : mediaSource { req with mediaUrlField := none } = mediaSource req := by
    simp [mediaSource, hfile]
  have hmedia : resolveMedia env (mediaSource req) =
      MediaResult.ok (some (env.optimizedUrl (env.uploadResult f.buffer))) 1 0 := by
    rw [hsrc]
    simp [resolveMedia]
  have hcreated : (sendBatchMessages env o req).2.created =
      createMessages c.id (parseContent req.contentField)
        (some (env.optimizedUrl (env.uploadResult f.buffer))) env.idSeed env.now
        (parseNumbers req.numbersField) := by
    simp [sendBatchMessages, sendBatchCore, hm, ha, hcl, hst, hi, hmedia, hv,
      addBatchLog_created]
  refine ⟨?_, ?_, ?_, ?_, ?_⟩
  · simp only [sendBatchMessages, sendBatchCore, hms]
  · simp [sendBatchMessages, sendBatchCore, hm, ha, hcl, hst, hi, hmedia, hv,
      addBatchLog_fetches]
  · simp [sendBatchMessages, sendBatchCore, hm, ha, hcl, hst, hi, hmedia, hv,
      addBatchLog_uploads]
  · simp [sendBatchMessages, sendBatchCore, hm, ha, hcl, hst, hi, hmedia, hv]
  · intro m hmem
    rw [hcreated] at hmem
    exact ((createMessages_mem _ _ _ _ _ _ m) hmem).2.2.1

/-- Witness for C10: both a PNG upload and a media URL are supplied, against
an environment whose fetch would fail if it were ever consulted. -/
theorem sendBatch_file_beats_mediaUrl_witness :
    sendBatchMessages envFetchFail (Except.ok ())
        { reqFileAndUrl with mediaUrlField := none } =
      sendBatchMessages envFetchFail (Except.ok ()) reqFileAndUrl ∧
    (sendBatchMessages envFetchFail (Except.ok ()) reqFileAndUrl).2.fetches = 0 ∧
    (sendBatchMessages envFetchFail (Except.ok ()) reqFileAndUrl).2.uploads = 1 ∧
    (sendBatchMessages envFetchFail (Except.ok ()) reqFileAndUrl).1.status = 200 ∧
    (∀ m ∈ (sendBatchMessages envFetchFail (Except.ok ()) reqFileAndUrl).2.created,
      m.mediaUrl = some (envFetchFail.optimizedUrl
        (envFetchFail.uploadResult filePng.buffer))) :=
  sendBatch_file_beats_mediaUrl envFetchFail (Except.ok ()) reqFileAndUrl
    "u1" { id := "c1", userId := "u1", status := ClientStatus.CONNECTED } filePng
    (by rfl) (by decide) (by rfl) (by rfl) (by decide) (by decide) (by rfl) (by rfl)
    (by rfl)

theorem sendBatchCore_started_facts (env : Env) (req : Req) :
    (sendBatchCore env req).2.batchStarted = false ∨
    ((sendBatchCore env req).1.status = 200 ∧
     (sendBatchCore env req).1.success = true ∧
     (sendBatchCore env req).1.message = "Processing messages for " ++
       toString (parseNumbers req.numbersField).length ++ " recipients" ∧
     (sendBatchCore env req).1.messageIds =
       some ((sendBatchCore env req).2.created.map Message.id) ∧
     (sendBatchCore env req).2.logs = []) := by
  unfold sendBatchCore
  repeat' split
  all_goals simp [noEffects]

/-- C7: once a batch is started, the 200 acknowledgement (recipient count in
the message, ordered created ids in `messageIds`) is the same whatever the
detached `processBatch` outcome is, and a failing outcome only adds a log
line. -/
theorem sendBatch_ack_independent_of_batch_outcome
    (env : Env) (o o2 : Except String Unit) (req : Req) (e : String)
    (hb : (sendBatchMessages env o req).2.batchStarted = true) :
    (sendBatchMessages env o2 req).1 = (sendBatchMessages env o req).1 ∧
    (sendBatchMessages env o req).1.status = 200 ∧
    (sendBatchMessages env o req).1.success = true ∧
    (sendBatchMessages env o req).1.message = "Processing messages for " ++
      toString (parseNumbers req.numbersField).length ++ " recipients" ∧
    (sendBatchMessages env o req).1.messageIds =
      some ((sendBatchMessages env o req).2.created.map Message.id) ∧
    (o = Except.error e →
      ("Message processing error: " ++ e) ∈ (sendBatchMessages env o req).2.logs) := by
  have hbcore : (sendBatchCore env req).2.batchStarted = true := by
    have := addBatchLog_batchStarted o (sendBatchCore env req).2
    unfold sendBatchMessages at hb
    rw [this] at hb
    exact hb
  have hfacts := (sendBatchCore_started_facts env req).resolve_left
    (by rw [hbcore]; decide)
  refine ⟨rfl, hfacts.1, hfacts.2.1, hfacts.2.2.1, ?_, ?_⟩
  · unfold sendBatchMessages
    rw [addBatchLog_created]
    exact hfacts.2.2.2.1
  · intro ho
    unfold sendBatchMessages
    subst ho
    simp [addBatchLog, hbcore, hfacts.2.2.2.2]

/-- Witness for C7: the happy-path request with a failing batch outcome. -/
theorem sendBatch_ack_independent_of_batch_outcome_witness :
    (sendBatchMessages envHappy (Except.ok ()) reqHappy).1 =
      (sendBatchMessages envHappy (Except.error "boom") reqHappy).1 ∧
    (sendBatchMessages envHappy (Except.error "boom") reqHappy).1.status = 200 ∧
    (sendBatchMessages envHappy (Except.error "boom") reqHappy).1.success = true ∧
    (sendBatchMessages envHappy (Except.error "boom") reqHappy).1.message =
      "Processing messages for " ++
        toString (parseNumbers reqHappy.numbersField).length ++ " recipients" ∧
    (sendBatchMessages envHappy (Except.error "boom") reqHappy).1.messageIds =
      some ((sendBatchMessages envHappy
        (Except.error "boom") reqHappy).2.created.map Message.id) ∧
    (Except.error "boom" = (Except.error "boom" : Except String Unit) →
      ("Message processing error: " ++ "boom") ∈
        (sendBatchMessages envHappy (Except.error "boom") reqHappy).2.logs) :=
  sendBatch_ack_independent_of_batch_outcome envHappy (Except.error "boom")
    (Except.ok ()) reqHappy "boom" (by decide)

/-- An uploaded file with a content type outside the allowed set. -/
def fileBadType : UploadedFile :=
  { mimetype := "text/plain", size := 10, buffer := [0] }

/-- Request fixture carrying the disallowed upload. -/
def reqBadFile : Req :=
  { reqHappy with file := some fileBadType }

/-- C9 counterexample: a request whose uploaded file has content type
`text/plain` is rejected before any persistence or upload — but the response
status is 500 (the generic catch), not a 400-class response as claimed. -/
theorem sendBatch_rejected_upload_counterexample :
    (sendBatchMessages envHappy (Except.ok ()) reqBadFile).2.created = [] ∧
    (sendBatchMessages envHappy (Except.ok ()) reqBadFile).2.uploads = 0 ∧
    (sendBatchMessages envHappy (Except.ok ()) reqBadFile).1.status = 500 ∧
    ¬((sendBatchMessages envHappy (Except.ok ()) reqBadFile).1.status = 400) := by
  decide

/-- C9 as amended: an oversized or wrongly-typed upload is rejected before any
message record is persisted or any media uploaded, and the rejection is
reported as the generic 500 `Failed to send messages` response (the multer
rejection propagates to the handler's outer catch), not as a 400. -/
theorem sendBatch_rejected_upload_fails_fast
    (env : Env) (o : Except String Unit) (req : Req) (f : UploadedFile)
    (hf : req.file = some f)
    (hbad : f.size > 16 * 1024 * 1024 ∨ ¬(allowedMimes.contains f.mimetype = true)) :
    (sendBatchMessages env o req).1.status = 500 ∧
    (sendBatchMessages env o req).1.success = false ∧
    (sendBatchMessages env o req).1.message = "Failed to send messages" ∧
    (sendBatchMessages env o req).1.errorField.isSome = true ∧
    (sendBatchMessages env o req).2.created = [] ∧
    (sendBatchMessages env o req).2.uploads = 0 ∧
    (sendBatchMessages env o req).2.fetches = 0 ∧
    (sendBatchMessages env o req).2.batchStarted = false := by
  have hm : ∃ e, multerUpload req.file = Except.error e := by
    rw [hf]
    by_cases hsz : f.size > 16 * 1024 * 1024
    · exact ⟨"Upload error: File too large", by simp [multerUpload, hsz]⟩
    · have hmt : ¬(allowedMimes.contains f.mimetype = true) := by
        rcases hbad with h | h
        · exact absurd h hsz
        · exact h
      have hmt2 : f.mimetype ∉ allowedMimes := by simpa using hmt
      exact ⟨"Invalid file type. Only images and PDF are allowed.",
        by simp [multerUpload, hsz, hmt, hmt2]⟩
  obtain ⟨e, hm⟩ := hm
  simp [sendBatchMessages, sendBatchCore, hm, addBatchLog_created, addBatchLog_uploads,
    addBatchLog_fetches, addBatchLog_batchStarted, noEffects]

/-- Witness for the amended C9 at the concrete `text/plain` upload. -/
theorem sendBatch_rejected_upload_fails_fast_witness :
    (sendBatchMessages envHappy (Except.ok ()) reqBadFile).1.status = 500 ∧
    (sendBatchMessages envHappy (Except.ok ()) reqBadFile).1.success = false ∧
    (sendBatchMessages envHappy (Except.ok ()) reqBadFile).1.message =
      "Failed to send messages" ∧
    (sendBatchMessages envHappy (Except.ok ()) reqBadFile).1.errorField.isSome = true ∧
    (sendBatchMessages envHappy (Except.ok ()) reqBadFile).2.created = [] ∧
    (sendBatchMessages envHappy (Except.ok ()) reqBadFile).2.uploads = 0 ∧
    (sendBatchMessages envHappy (Except.ok ()) reqBadFile).2.fetches = 0 ∧
    (sendBatchMessages envHappy (Except.ok ()) reqBadFile).2.batchStarted = false :=
  sendBatch_rejected_upload_fails_fast envHappy (Except.ok ()) reqBadFile fileBadType
    (by rfl) (Or.inr (by decide))

theorem jsCeilDiv_le_iff (t l k : Nat) (hl : 1 ≤ l) :
    jsCeilDiv t l ≤ k ↔ t ≤ k * l := by
  unfold jsCeilDiv
  rw [← Nat.lt_succ_iff, Nat.div_lt_iff_lt_mul hl]
  have hkl : (k + 1) * l = k * l + l := by ring
  rw [hkl]
  generalize k * l = A
  omega

/-- C4: for an authenticated user with a client, any page `p ≥ 1` and limit
`l ≥ 1` and optional status filter, `getMessages` answers 200 with exactly the
window of positions `(p-1)*l .. p*l - 1` (0-based) of the client's filtered
messages sorted by `createdAt` descending, the total count over the same
filter, and `totalPages` equal to the ceiling of `total / limit` (characterised
by its Galois property `totalPages ≤ k ↔ total ≤ k * l`). -/
theorem getMessages_paginates
    (db : DB) (uo : Option String) (u : String) (client : Client)
    (page limit : Nat) (sf : Option MessageStatus)
    (hu : authUser uo = some u)
    (hp : 1 ≤ page) (hl : 1 ≤ limit)
    (hcl : findFirstClient db.clients u = some client) :
    (getMessages db uo page limit sf).status = 200 ∧
    List.Perm (sortDesc (db.messages.filter (matchesFilter client.id sf)))
      (db.messages.filter (matchesFilter client.id sf)) ∧
    List.Sorted createdDesc
      (sortDesc (db.messages.filter (matchesFilter client.id sf))) ∧
    (∀ i, i < limit →
      (getMessages db uo page limit sf).messages[i]? =
        (sortDesc (db.messages.filter
          (matchesFilter client.id sf)))[(page - 1) * limit + i]?) ∧
    (getMessages db uo page limit sf).messages.length ≤ limit ∧
    (getMessages db uo page limit sf).pagination = some
      { page := page, limit := limit,
        total := (db.messages.filter (matchesFilter client.id sf)).length,
        totalPages := jsCeilDiv
          (db.messages.filter (matchesFilter client.id sf)).length limit } ∧
    (∀ k, jsCeilDiv (db.messages.filter (matchesFilter client.id sf)).length limit ≤ k ↔
      (db.messages.filter (matchesFilter client.id sf)).length ≤ k * limit) := by
  refine ⟨?_, ?_, ?_, ?_, ?_, ?_, ?_⟩
  · simp [getMessages, hu, hcl]
  · exact List.perm_insertionSort createdDesc _
  · exact List.sorted_insertionSort createdDesc _
  · intro i hi
    simp only [getMessages, hu, hcl]
    rw [List.getElem?_take, if_pos hi, List.getElem?_drop]
  · simp only [getMessages, hu, hcl]
    exact List.length_take_le _ _
  · simp [getMessages, hu, hcl]
  · intro k
    exact jsCeilDiv_le_iff _ limit k hl

/-- Database fixture for C4: one client of user `u1` holding 25 messages with
distinct descending timestamps. -/
def dbTwentyFive : DB :=
  { clients := [{ id := "c1", userId := "u1", status := ClientStatus.CONNECTED }],
    messages := (List.range 25).map (fun i =>
      { id := "m" ++ toString i, clientId := "c1", number := "111",
        content := "hi", status := MessageStatus.PENDING, mediaUrl := none,
        errorDetail := none, createdAt := 1000 - i }) }

/-- Witness for C4: page 2 with limit 10 over 25 messages. -/
theorem getMessages_paginates_witness :
    (getMessages dbTwentyFive (some "u1") 2 10 none).status = 200 ∧
    List.Perm (sortDesc (dbTwentyFive.messages.filter (matchesFilter "c1" none)))
      (dbTwentyFive.messages.filter (matchesFilter "c1" none)) ∧
    List.Sorted createdDesc
      (sortDesc (dbTwentyFive.messages.filter (matchesFilter "c1" none))) ∧
    (∀ i, i < 10 →
      (getMessages dbTwentyFive (some "u1") 2 10 none).messages[i]? =
        (sortDesc (dbTwentyFive.messages.filter
          (matchesFilter "c1" none)))[(2 - 1) * 10 + i]?) ∧
    (getMessages dbTwentyFive (some "u1") 2 10 none).messages.length ≤ 10 ∧
    (getMessages dbTwentyFive (some "u1") 2 10 none).pagination = some
      { page := 2, limit := 10,
        total := (dbTwentyFive.messages.filter (matchesFilter "c1" none)).length,
        totalPages := jsCeilDiv
          (dbTwentyFive.messages.filter (matchesFilter "c1" none)).length 10 } ∧
    (∀ k, jsCeilDiv (dbTwentyFive.messages.filter
        (matchesFilter "c1" none)).length 10 ≤ k ↔
      (dbTwentyFive.messages.filter (matchesFilter "c1" none)).length ≤ k * 10) :=
  getMessages_paginates dbTwentyFive (some "u1") "u1"
    { id := "c1", userId := "u1", status := ClientStatus.CONNECTED }
    2 10 none (by rfl) (by decide) (by decide) (by rfl)

/-- The concrete shape of the C4 fixture page: 25 messages, page 2, limit 10
gives records 11 through 20 by descending creation time and 3 total pages. -/
theorem getMessages_page2_of_25 :
    ((getMessages dbTwentyFive (some "u1") 2 10 none).messages.map
      Message.id) =
      ["m10", "m11", "m12", "m13", "m14", "m15", "m16", "m17", "m18", "m19"] ∧
    (getMessages dbTwentyFive (some "u1") 2 10 none).pagination =
      some { page := 2, limit := 10, total := 25, totalPages := 3 } := by
  decide

/-- C6: a message that belongs to a session owned by user `a` is invisible to
any other authenticated user `b`: `getMessageStatus` answers 404 with no data.
Uniqueness of the `@id` columns (message ids and client ids) is assumed, as
the schema declares. -/
theorem getMessageStatus_cross_user_not_found
    (db : DB) (a b mid : String) (msg : Message) (c : Client)
    (hmem : msg ∈ db.messages)
    (hmid : msg.id = mid)
    (hcmem : c ∈ db.clients)
    (hcid : c.id = msg.clientId)
    (howner : c.userId = a)
    (hb : b ≠ "")
    (hab : b ≠ a)
    (hmsgU : (db.messages.map Message.id).Nodup)
    (hclU : (db.clients.map Client.id).Nodup) :
    getMessageStatus db (some b) mid =
      { status := 404, success := false, data := none } := by
  have hauth : authUser (some b) = some b := by simp [authUser, hb]
  have hfind : db.messages.find? (fun m => m.id == mid &&
      db.clients.any (fun c2 => c2.id == m.clientId && c2.userId == b)) = none := by
    rw [List.find?_eq_none]
    intro m hm
    simp only [Bool.and_eq_true, beq_iff_eq, List.any_eq_true, not_and]
    intro hid
    have hmeq : m = msg :=
      List.inj_on_of_nodup_map hmsgU hm hmem (by rw [hid, hmid])
    subst hmeq
    rintro ⟨c2, hc2, hc2id, hc2u⟩
    have hc2eq : c2 = c :=
      List.inj_on_of_nodup_map hclU hc2 hcmem (by rw [hc2id, hcid])
    rw [hc2eq, howner] at hc2u
    exact hab hc2u.symm
  simp [getMessageStatus, hauth, hfind]

/-- Alice's client for the C6 fixture. -/
def clientA : Client :=
  { id := "ca", userId := "alice", status := ClientStatus.CONNECTED }

/-- Bob's client for the C6 fixture. -/
def clientB : Client :=
  { id := "cb", userId := "bob", status := ClientStatus.CONNECTED }

/-- Alice's message for the C6 fixture. -/
def msgA : Message :=
  { id := "msgA", clientId := "ca", number := "111", content := "hi",
    status := MessageStatus.SENT, mediaUrl := none, errorDetail := none,
    createdAt := 5 }

/-- Database fixture for C6: Alice's client `ca` owns message `msgA`; Bob owns
client `cb` with no messages. -/
def dbTwoUsers : DB :=
  { clients := [clientA, clientB], messages := [msgA] }

/-- Witness for C6: Bob asking for Alice's message gets 404. -/
theorem getMessageStatus_cross_user_not_found_witness :
    getMessageStatus dbTwoUsers (some "bob") "msgA" =
      { status := 404, success := false, data := none } :=
  getMessageStatus_cross_user_not_found dbTwoUsers "alice" "bob" "msgA"
    msgA clientA
    (by simp [dbTwoUsers]) (by rfl) (by simp [dbTwoUsers]) (by rfl) (by rfl)
    (by decide) (by decide)
    (by simp [dbTwoUsers]) (by simp [dbTwoUsers, clientA, clientB])

